import Mathlib

/-!
# Verification of the adoption-matching agent's scoring engine

Shallow embedding of the repository's Python sources:

* `src/tools/compatibility_scorer.py` — `CompatibilityScorer`
* `src/agents/matching_agent.py`      — `MatchingAgent.find_matches`
* `src/models/memory_store.py`        — `MemoryStore`
* `src/models/adoption_session.py`    — `AdoptionSession`

Records are flat string-keyed mappings produced by `csv.DictReader`
(`src/tools/data_loader.py`), so every header column is present as a
string on every row; the identity and name columns are therefore modelled
as plain `String` (they are accessed unconditionally, e.g.
`animal['animal_id']` in `find_matches`), while every categorical field —
which the scorer only ever reads through `dict.get(key, default)` — is
modelled as `Option String` so that a missing key is representable.

Arithmetic note.  `calculate_compatibility` computes
`sum(scores[k] * self.weights[k])` in IEEE-754 double arithmetic with
weights 0.3/0.2/0.2/0.2/0.1 and sub-scores drawn from the finite sets
{40,70,100}, {40,90,100}, {40,85,90,100}, {10,30,60,70,100}, {30,60,95,100}.
Every individual product `score * weight` of these values rounds to the
exact real value (an integral multiple of 0.5, checked by hand against the
binary64 rounding of 0.1/0.2/0.3), and every partial sum of such multiples
of 0.5 below 128 is exactly representable, so the float computation is
exact and `int(total_score)` equals the floor of the exact rational value.
We therefore embed the aggregation as exact integer arithmetic:
`(30*ls + 20*es + 20*hs + 20*bs + 10*ss) / 100` with `Nat` floor division.
-/

/-- Python's `str.lower()`: lowercase every character.  (The source only
ever lowercases ASCII category labels, where `Char.toLower` agrees with
Python's case mapping.) -/
def strLower (s : String) : String := ⟨s.data.map Char.toLower⟩

/-- An animal row from `animal_data.csv`.  `animal_id` and `name` are read
unconditionally by `MatchingAgent.find_matches`; the categorical fields are
only read via `dict.get` with a default, so they are `Option String`. -/
structure AnimalRec where
  animal_id : String
  name : String
  breed : Option String := none
  energy_level : Option String := none
  good_with_kids : Option String := none
  good_with_dogs : Option String := none
  special_needs : Option String := none
  deriving DecidableEq, Repr

/-- An adopter row from `adopter_data.csv`. -/
structure AdopterRec where
  adopter_id : String
  name : String
  lifestyle : Option String := none
  home_type : Option String := none
  has_kids : Option String := none
  has_other_pets : Option String := none
  experience_level : Option String := none
  commitment_level : Option String := none
  deriving DecidableEq, Repr

namespace CompatibilityScorer

/-- `CompatibilityScorer.__init__`: the fixed weight table, scaled by 100
to stay in integers (0.30 ↦ 30, …).  The Python dict is
`{'lifestyle_match': 0.30, 'experience_match': 0.20, 'home_fit': 0.20,
'behavioral_fit': 0.20, 'special_needs': 0.10}`. -/
def weights : List (String × Nat) :=
  [("lifestyle_match", 30), ("experience_match", 20), ("home_fit", 20),
   ("behavioral_fit", 20), ("special_needs", 10)]

/-- The weight table as exact rationals, for stating the sum invariant. -/
def weightsQ : List (String × ℚ) :=
  [("lifestyle_match", 3/10), ("experience_match", 2/10), ("home_fit", 2/10),
   ("behavioral_fit", 2/10), ("special_needs", 1/10)]

/-- `_score_lifestyle`'s `energy_map = {'low': 1, 'medium': 2, 'high': 3}`. -/
def energy_map : List (String × Nat) :=
  [("low", 1), ("medium", 2), ("high", 3)]

/-- `_score_lifestyle`'s `lifestyle_map`. -/
def lifestyle_map : List (String × Nat) :=
  [("quiet", 1), ("relaxed", 1), ("moderate", 2), ("active", 3),
   ("outdoor-person", 3), ("family-focused", 2), ("busy", 1)]

/-- `CompatibilityScorer._score_lifestyle`. -/
def score_lifestyle (animal : AnimalRec) (adopter : AdopterRec) : Nat :=
  let animal_energy := strLower (animal.energy_level.getD "medium")
  let adopter_lifestyle := strLower (adopter.lifestyle.getD "moderate")
  let animal_level := (energy_map.lookup animal_energy).getD 2
  let adopter_level := (lifestyle_map.lookup adopter_lifestyle).getD 2
  let diff := ((animal_level : Int) - (adopter_level : Int)).natAbs
  if diff = 0 then 100
  else if diff = 1 then 70
  else 40

/-- `CompatibilityScorer._score_experience`.  Note the source defaults a
missing `special_needs` to `''` here and a missing `experience_level` to
`'beginner'`. -/
def score_experience (animal : AnimalRec) (adopter : AdopterRec) : Nat :=
  let animal_needs_training := strLower (animal.special_needs.getD "") == "yes"
  let adopter_experience := strLower (adopter.experience_level.getD "beginner")
  if animal_needs_training && (adopter_experience == "experienced") then 100
  else if animal_needs_training && (adopter_experience == "beginner") then 40
  else if !animal_needs_training && (adopter_experience == "beginner") then 90
  else 100

/-- `CompatibilityScorer._estimate_size`.  Python's `b in breed_lower` is a
contiguous-substring test, embedded as list-infix on the character
lists. -/
def estimate_size (breed : String) : String :=
  let large_breeds := ["retriever", "shepherd", "labrador", "pit bull"]
  let small_breeds := ["cat", "tabby", "persian", "beagle"]
  let breed_lower := strLower breed
  if large_breeds.any (fun b => decide (b.data <:+: breed_lower.data)) then "large"
  else if small_breeds.any (fun b => decide (b.data <:+: breed_lower.data)) then "small"
  else "medium"

/-- `CompatibilityScorer._score_home`. -/
def score_home (animal : AnimalRec) (adopter : AdopterRec) : Nat :=
  let animal_size := estimate_size (animal.breed.getD "")
  let home_type := strLower (adopter.home_type.getD "apartment")
  if home_type == "house" then
    if animal_size == "large" then 100 else 90
  else
    if animal_size == "large" then 40 else 85

/-- `CompatibilityScorer._score_behavior`.  The running `score` is Python
`int` arithmetic, embedded as `Int`; the result `max(score, 10)` is
non-negative, returned as `Nat`. -/
def score_behavior (animal : AnimalRec) (adopter : AdopterRec) : Nat :=
  let has_kids := strLower (adopter.has_kids.getD "no") == "yes"
  let has_other_pets := strLower (adopter.has_other_pets.getD "no") == "yes"
  let animal_good_kids := strLower (animal.good_with_kids.getD "no") == "yes"
  let animal_good_pets := strLower (animal.good_with_dogs.getD "no") == "yes"
  let score : Int := 100
  let score := if has_kids && !animal_good_kids then score - 40 else score
  let score := if has_other_pets && !animal_good_pets then score - 30 else score
  (max score 10).toNat

/-- `CompatibilityScorer._score_special_needs`. -/
def score_special_needs (animal : AnimalRec) (adopter : AdopterRec) : Nat :=
  let has_special_needs := strLower (animal.special_needs.getD "no") == "yes"
  let commitment := strLower (adopter.commitment_level.getD "medium")
  if !has_special_needs then 100
  else if commitment == "high" then 95
  else if commitment == "medium" then 60
  else 30

/-- `CompatibilityScorer._generate_reasoning`: deterministic text built
from the two names and the five sub-scores. -/
def generate_reasoning (animal : AnimalRec) (adopter : AdopterRec)
    (ls es hs bs ss : Nat) : String :=
  let animal_name := animal.name
  let adopter_name := adopter.name
  s!"Match Analysis: {animal_name} ↔ {adopter_name}\n" ++
  s!"- Lifestyle Compatibility: {ls}/100\n" ++
  s!"- Experience Match: {es}/100\n" ++
  s!"- Home Fit: {hs}/100\n" ++
  s!"- Behavioral Compatibility: {bs}/100\n" ++
  s!"- Special Needs Capability: {ss}/100\n"

/-- `CompatibilityScorer.calculate_compatibility`: the five sub-scores,
their weighted total truncated to an integer (exact by the arithmetic note
in the module header), and the reasoning text. -/
def calculate_compatibility (animal : AnimalRec) (adopter : AdopterRec) :
    Nat × String :=
  let ls := score_lifestyle animal adopter
  let es := score_experience animal adopter
  let hs := score_home animal adopter
  let bs := score_behavior animal adopter
  let ss := score_special_needs animal adopter
  let total_score := (30 * ls + 20 * es + 20 * hs + 20 * bs + 10 * ss) / 100
  (total_score, generate_reasoning animal adopter ls es hs bs ss)

end CompatibilityScorer

/-! ## `src/tools/data_loader.py` and `src/agents/matching_agent.py` -/

/-- `DataLoader`: the two record collections loaded from CSV, in file
order.  Lookup and iteration are the only operations the agents use. -/
structure DataLoader where
  animals : List AnimalRec
  adopters : List AdopterRec

/-- `DataLoader.get_adopter`: first adopter whose `adopter_id` matches,
`None` otherwise (the Python loop returns on the first hit). -/
def DataLoader.get_adopter (dl : DataLoader) (adopter_id : String) :
    Option AdopterRec :=
  dl.adopters.find? (fun a => a.adopter_id == adopter_id)

/-- `DataLoader.get_all_animals`. -/
def DataLoader.get_all_animals (dl : DataLoader) : List AnimalRec :=
  dl.animals

/-- The match dictionary built in the body of `find_matches`' loop. -/
structure MatchRec where
  animal_id : String
  animal_name : String
  adopter_id : String
  adopter_name : String
  score : Nat
  reasoning : String
  deriving DecidableEq, Repr

namespace MatchingAgent

/-- One iteration of the `find_matches` loop: score the animal against the
adopter and package the result. -/
def mkMatch (adopter : AdopterRec) (animal : AnimalRec) : MatchRec :=
  let sr := CompatibilityScorer.calculate_compatibility animal adopter
  { animal_id := animal.animal_id
    animal_name := animal.name
    adopter_id := adopter.adopter_id
    adopter_name := adopter.name
    score := sr.1
    reasoning := sr.2 }

/-- `MatchingAgent.find_matches`.  Python's `list.sort(key=..., reverse=True)`
is a stable sort under the flipped comparison, embedded as `mergeSort` with
`le x y := y.score ≤ x.score` (Lean's `mergeSort` is stable); `[:top_n]`
is `take`, and `top_n` defaults to 3 as in the source. -/
def find_matches (dl : DataLoader) (adopter_id : String)
    (top_n : Nat := 3) : List MatchRec :=
  match dl.get_adopter adopter_id with
  | none => []
  | some adopter =>
    let «matches» := (dl.get_all_animals).map (mkMatch adopter)
    let sorted := «matches».mergeSort (fun x y => decide (y.score ≤ x.score))
    sorted.take top_n

end MatchingAgent

/-! ## `src/models/adoption_session.py` and `src/models/memory_store.py`

Wall-clock reads (`datetime.now()`) are embedded by passing the current
time explicitly as a `Nat` parameter `now`; Python's in-place object
mutation becomes explicit state passing.  A Python `dict` whose insertion
order is observable is an association list; assignment to an existing key
overwrites in place, a new key is appended. -/

/-- Python dict assignment `d[k] = v` on an insertion-ordered dict. -/
def dictSet {α : Type} (d : List (String × α)) (k : String) (v : α) :
    List (String × α) :=
  if d.any (fun p => p.1 == k) then
    d.map (fun p => if p.1 == k then (k, v) else p)
  else
    d ++ [(k, v)]

/-- `AdoptionMatch` (dataclass in `adoption_session.py`). -/
structure AdoptionMatch where
  animal_id : String
  adopter_id : String
  animal_name : String
  adopter_name : String
  score : Nat
  timestamp : Nat
  status : String := "recommended"
  notes : String := ""
  deriving DecidableEq, Repr

/-- `AdoptionSession` (dataclass).  `session_state` is a string-keyed dict. -/
structure AdoptionSession where
  session_id : String
  adopter_id : String
  created_at : Nat
  «matches» : List AdoptionMatch := []
  selected_animal : Option String := none
  adoption_date : Option Nat := none
  feedback : String := ""
  session_state : List (String × String) := []
  deriving DecidableEq, Repr

namespace AdoptionSession

/-- `AdoptionSession.add_match`: append to the in-session match list.
Note: this method touches only the session object; it performs no
persistence call. -/
def add_match (m : AdoptionMatch) (s : AdoptionSession) : AdoptionSession :=
  { s with «matches» := s.«matches» ++ [m] }

/-- `AdoptionSession.select_animal`. -/
def select_animal (now : Nat) (animal_id : String) (s : AdoptionSession) :
    AdoptionSession :=
  { s with selected_animal := some animal_id
           session_state := dictSet s.session_state "selection_time" (toString now) }

/-- `AdoptionSession.complete_adoption`. -/
def complete_adoption (now : Nat) (s : AdoptionSession) : AdoptionSession :=
  { s with adoption_date := some now
           session_state := dictSet s.session_state "status" "completed" }

/-- `AdoptionSession.add_feedback`. -/
def add_feedback (now : Nat) (fb : String) (s : AdoptionSession) :
    AdoptionSession :=
  { s with feedback := fb
           session_state := dictSet s.session_state "feedback_time" (toString now) }

end AdoptionSession

/-- One entry of the flat match-history log (`record_match` receives an
arbitrary match dict; the statistics code reads `score` and `adopter_id`
through `.get`, so those keys may be absent). -/
structure HistEntry where
  animal_id : Option String := none
  adopter_id : Option String := none
  animal_name : Option String := none
  score : Option Nat := none
  timestamp : Option Nat := none
  deriving DecidableEq, Repr

/-- The JSON document `save_to_file` writes: last-saved timestamp, every
session serialized, and the flat match-history log. -/
structure FileDoc where
  last_saved : Nat
  sessions : List AdoptionSession
  match_history : List HistEntry
  deriving DecidableEq, Repr

/-- `MemoryStore` state: the insertion-ordered session dict, the history
log, and the current content of the storage file (`none` = absent). -/
structure MemoryStore where
  sessions : List (String × AdoptionSession) := []
  match_history : List HistEntry := []
  file : Option FileDoc := none
  deriving DecidableEq, Repr

namespace MemoryStore

/-- `MemoryStore.save_to_file`: one full-document rewrite of the entire
in-memory state. -/
def save_to_file (now : Nat) (st : MemoryStore) : MemoryStore :=
  { st with file := some { last_saved := now
                           sessions := st.sessions.map (fun p => p.2)
                           match_history := st.match_history } }

/-- `MemoryStore.create_session`: insert the fresh session, persist, and
return it. -/
def create_session (now : Nat) (session_id adopter_id : String)
    (st : MemoryStore) : MemoryStore × AdoptionSession :=
  let session : AdoptionSession :=
    { session_id := session_id, adopter_id := adopter_id, created_at := now }
  let st := { st with sessions := dictSet st.sessions session_id session }
  (save_to_file now st, session)

/-- `MemoryStore.record_match`: stamp the entry, append it to the history
log, and persist. -/
def record_match (now : Nat) (md : HistEntry) (st : MemoryStore) :
    MemoryStore :=
  let md := { md with timestamp := some now }
  save_to_file now { st with match_history := st.match_history ++ [md] }

/-- A caller invoking a mutating `AdoptionSession` method on a session
object held in the store (Python mutates the aliased object in place).
Only the session dict changes; `save_to_file` is not invoked anywhere on
this path. -/
def mutate_session (session_id : String)
    (f : AdoptionSession → AdoptionSession) (st : MemoryStore) : MemoryStore :=
  { st with sessions :=
      st.sessions.map (fun p => if p.1 == session_id then (p.1, f p.2) else p) }

/-- The statistics dictionary; optional keys are absent in the
empty-history result `{"total_matches": 0}`.  `average_score` is the exact
rational the Python float division approximates. -/
structure Stats where
  total_matches : Nat
  average_score : Option ℚ := none
  high_matches : Option Nat := none
  total_adopters : Option Nat := none
  deriving DecidableEq, Repr

/-- `MemoryStore.get_match_statistics`. -/
def get_match_statistics (st : MemoryStore) : Stats :=
  if st.match_history = [] then { total_matches := 0 }
  else
    { total_matches := st.match_history.length
      average_score := some
        ((st.match_history.map (fun m => ((m.score.getD 0 : ℚ)))).sum /
          (st.match_history.length : ℚ))
      high_matches := some
        ((st.match_history.filter (fun m => 80 ≤ m.score.getD 0)).length)
      total_adopters := some
        ((st.match_history.map (fun m => m.adopter_id)).dedup.length) }

end MemoryStore

/-! ## Concrete records used by counterexamples and witnesses -/

/-- The animal of the spec's first end-to-end example. -/
def goldenAnimal : AnimalRec where
  animal_id := "1"
  name := "Buddy"
  breed := some "Golden Retriever"
  energy_level := some "high"
  good_with_kids := some "yes"
  good_with_dogs := some "yes"
  special_needs := some "no"

/-- The adopter of the spec's first end-to-end example. -/
def activeAdopter : AdopterRec where
  adopter_id := "1"
  name := "John"
  lifestyle := some "active"
  home_type := some "house"
  has_kids := some "yes"
  has_other_pets := some "yes"
  experience_level := some "beginner"
  commitment_level := some "medium"

/-- Case-variant copy of `goldenAnimal`: same field letters, different
letter case. -/
def goldenAnimalCaps : AnimalRec where
  animal_id := "1"
  name := "Buddy"
  breed := some "GOLDEN RETRIEVER"
  energy_level := some "High"
  good_with_kids := some "YES"
  good_with_dogs := some "Yes"
  special_needs := some "NO"

/-- Case-variant copy of `activeAdopter`. -/
def activeAdopterCaps : AdopterRec where
  adopter_id := "1"
  name := "John"
  lifestyle := some "Active"
  home_type := some "HOUSE"
  has_kids := some "Yes"
  has_other_pets := some "YES"
  experience_level := some "Beginner"
  commitment_level := some "Medium"

/-- An animal failing both behavioral checks (`good_with_kids` and
`good_with_dogs` both `no`). -/
def grumpyAnimal : AnimalRec where
  animal_id := "2"
  name := "Grump"
  good_with_kids := some "no"
  good_with_dogs := some "no"

/-- An adopter with both kids and other pets. -/
def busyHouseholdAdopter : AdopterRec where
  adopter_id := "2"
  name := "Kim"
  has_kids := some "yes"
  has_other_pets := some "yes"

/-- An animal with `special_needs = no`. -/
def easyAnimal : AnimalRec where
  animal_id := "3"
  name := "Easy"
  special_needs := some "no"

/-- An adopter whose record has no `experience_level` key at all. -/
def noExperienceKeyAdopter : AdopterRec where
  adopter_id := "3"
  name := "Lee"

/-- An animal with `special_needs = yes`, for the beginner boundary case. -/
def needyAnimal : AnimalRec where
  animal_id := "5"
  name := "Needy"
  special_needs := some "yes"

/-- An adopter with an unrecognized `experience_level` value. -/
def intermediateAdopter : AdopterRec where
  adopter_id := "5"
  name := "Pat"
  experience_level := some "intermediate"

/-- A second animal for the ranking witness (scores lower against
`activeAdopter` than `goldenAnimal` does). -/
def calmCat : AnimalRec where
  animal_id := "9"
  name := "Calm"
  breed := some "persian"
  energy_level := some "low"

/-- A tiny record store for exercising `find_matches`. -/
def witnessLoader : DataLoader where
  animals := [calmCat, goldenAnimal]
  adopters := [activeAdopter]

/-- A session-level match used by the persistence counterexample. -/
def witnessMatch : AdoptionMatch where
  animal_id := "1"
  adopter_id := "a1"
  animal_name := "Buddy"
  adopter_name := "John"
  score := 98
  timestamp := 7

/-- Store state after `create_session` at time 5: the file holds the full
state at that moment. -/
def storeAfterCreate : MemoryStore :=
  (MemoryStore.create_session 5 "s1" "a1" {}).1

/-- Store state after additionally calling `add_match` on the session
object: the in-memory session gains a match, the file is untouched. -/
def storeAfterAddMatch : MemoryStore :=
  MemoryStore.mutate_session "s1" (AdoptionSession.add_match witnessMatch)
    storeAfterCreate

/-- A one-entry history store for the statistics witness. -/
def oneMatchStore : MemoryStore where
  match_history := [{ adopter_id := some "a1", score := some 85 }]

/-! ## Named subexpressions and relations used by theorem statements -/

namespace CompatibilityScorer

/-- The `animal_needs_training` flag computed inside `_score_experience`
(missing `special_needs` defaults to the empty string there). -/
def needs_training (a : AnimalRec) : Bool :=
  strLower (a.special_needs.getD "") == "yes"

/-- The defaulted, lowercased `adopter_experience` value read by
`_score_experience`: a missing key defaults to `beginner`. -/
def effective_experience (b : AdopterRec) : String :=
  strLower (b.experience_level.getD "beginner")

end CompatibilityScorer

/-- Two animal records whose categorical fields agree up to letter case
(same keys present, values equal after lowercasing). -/
def lowerEquivAnimal (a a2 : AnimalRec) : Prop :=
  a.breed.map strLower = a2.breed.map strLower ∧
  a.energy_level.map strLower = a2.energy_level.map strLower ∧
  a.good_with_kids.map strLower = a2.good_with_kids.map strLower ∧
  a.good_with_dogs.map strLower = a2.good_with_dogs.map strLower ∧
  a.special_needs.map strLower = a2.special_needs.map strLower

/-- Two adopter records whose categorical fields agree up to letter case. -/
def lowerEquivAdopter (b b2 : AdopterRec) : Prop :=
  b.lifestyle.map strLower = b2.lifestyle.map strLower ∧
  b.home_type.map strLower = b2.home_type.map strLower ∧
  b.has_kids.map strLower = b2.has_kids.map strLower ∧
  b.has_other_pets.map strLower = b2.has_other_pets.map strLower ∧
  b.experience_level.map strLower = b2.experience_level.map strLower ∧
  b.commitment_level.map strLower = b2.commitment_level.map strLower

/-! ## Helper lemmas -/

namespace CompatibilityScorer

/-- The total returned by `calculate_compatibility` is the floored weighted
sum of the five sub-scores. -/
theorem calc_fst (a : AnimalRec) (b : AdopterRec) :
    (calculate_compatibility a b).1 =
      (30 * score_lifestyle a b + 20 * score_experience a b +
       20 * score_home a b + 20 * score_behavior a b +
       10 * score_special_needs a b) / 100 := rfl

theorem score_lifestyle_le (a : AnimalRec) (b : AdopterRec) :
    score_lifestyle a b ≤ 100 := by
  simp only [score_lifestyle]
  repeat' split
  all_goals omega

theorem score_experience_le (a : AnimalRec) (b : AdopterRec) :
    score_experience a b ≤ 100 := by
  simp only [score_experience]
  repeat' split
  all_goals omega

theorem score_home_le (a : AnimalRec) (b : AdopterRec) :
    score_home a b ≤ 100 := by
  simp only [score_home]
  repeat' split
  all_goals omega

theorem score_behavior_le (a : AnimalRec) (b : AdopterRec) :
    score_behavior a b ≤ 100 := by
  simp only [score_behavior]
  repeat' split
  all_goals omega

theorem score_special_needs_le (a : AnimalRec) (b : AdopterRec) :
    score_special_needs a b ≤ 100 := by
  simp only [score_special_needs]
  repeat' split
  all_goals omega

end CompatibilityScorer

/-! ## Claim theorems -/

namespace CompatibilityScorer

/-- C1: for every animal record and adopter record (categorical fields may
be missing or hold unrecognized values), `calculate_compatibility` returns
(it is a total function: every categorical lookup substitutes a default,
so no branch can fail) and the total score is an integer in [0, 100]. -/
theorem calculate_compatibility_total_in_range
    (a : AnimalRec) (b : AdopterRec) :
    0 ≤ (calculate_compatibility a b).1 ∧
      (calculate_compatibility a b).1 ≤ 100 := by
  refine ⟨Nat.zero_le _, ?_⟩
  have h1 := score_lifestyle_le a b
  have h2 := score_experience_le a b
  have h3 := score_home_le a b
  have h4 := score_behavior_le a b
  have h5 := score_special_needs_le a b
  rw [calc_fst]
  omega

/-- C2 counterexample: on the spec's own end-to-end example pair, the
total score is not 97 (the weighted sum is 30 + 18 + 20 + 20 + 10 = 98). -/
theorem golden_example_total_ne_97 :
    (calculate_compatibility goldenAnimal activeAdopter).1 ≠ 97 := by decide

/-- C2 amended: on the pair {energy=high, breed=Golden Retriever,
good_with_kids=yes, good_with_dogs=yes, special_needs=no} versus
{lifestyle=active, home_type=house, has_kids=yes, has_other_pets=yes,
experience_level=beginner, commitment_level=medium}, the sub-scores are
lifestyle 100, experience 90, home 100, behavioral 100, special needs 100,
and the total is floor(100*0.3 + 90*0.2 + 100*0.2 + 100*0.2 + 100*0.1)
= 98. -/
theorem golden_example_breakdown :
    score_lifestyle goldenAnimal activeAdopter = 100 ∧
    score_experience goldenAnimal activeAdopter = 90 ∧
    score_home goldenAnimal activeAdopter = 100 ∧
    score_behavior goldenAnimal activeAdopter = 100 ∧
    score_special_needs goldenAnimal activeAdopter = 100 ∧
    (calculate_compatibility goldenAnimal activeAdopter).1 = 98 := by decide

/-- C3 counterexample: an animal failing both the kids and the pets check
against an adopter with kids and other pets scores 30 on behavioral fit,
not 10: the penalties sum to 70 and `max(100 - 70, 10) = 30`. -/
theorem behavior_double_fail_not_10 :
    score_behavior grumpyAnimal busyHouseholdAdopter = 30 ∧
    score_behavior grumpyAnimal busyHouseholdAdopter ≠ 10 := by decide

/-- C3 amended: for every pair in which the adopter has `has_kids = yes`
and `has_other_pets = yes` and the animal has `good_with_kids = no` and
`good_with_dogs = no`, the behavioral sub-score is exactly 30 (the clamp
to 10 is not reached). -/
theorem behavior_double_fail_eq_30 (a : AnimalRec) (b : AdopterRec)
    (hk : b.has_kids = some "yes") (hp : b.has_other_pets = some "yes")
    (gk : a.good_with_kids = some "no") (gp : a.good_with_dogs = some "no") :
    score_behavior a b = 30 := by
  simp only [score_behavior, hk, hp, gk, gp]
  decide

/-- C3 witness: the amended theorem applied to the concrete records. -/
theorem behavior_double_fail_eq_30_witness :
    score_behavior grumpyAnimal busyHouseholdAdopter = 30 :=
  behavior_double_fail_eq_30 grumpyAnimal busyHouseholdAdopter rfl rfl rfl rfl

end CompatibilityScorer

namespace CompatibilityScorer

/-- C4 counterexample: an adopter record with no `experience_level` key is
scored as a beginner, not as 100: with a no-special-needs animal the
experience sub-score is 90. -/
theorem experience_missing_key_not_100 :
    noExperienceKeyAdopter.experience_level = none ∧
    score_experience easyAnimal noExperienceKeyAdopter = 90 ∧
    score_experience easyAnimal noExperienceKeyAdopter ≠ 100 := by decide

/-- C4 amended: the experience decision table, where a missing
`experience_level` first defaults to `beginner` (and only an unrecognized
present value falls into the 100 bucket): special-needs and experienced
gives 100, special-needs and beginner gives 40, no-special-needs and
beginner gives 90, experienced without special needs gives 100, and any
other (unrecognized) experience value gives 100. -/
theorem score_experience_table (a : AnimalRec) (b : AdopterRec) :
    (needs_training a = true → effective_experience b = "experienced" →
      score_experience a b = 100) ∧
    (needs_training a = true → effective_experience b = "beginner" →
      score_experience a b = 40) ∧
    (needs_training a = false → effective_experience b = "beginner" →
      score_experience a b = 90) ∧
    (needs_training a = false → effective_experience b = "experienced" →
      score_experience a b = 100) ∧
    (effective_experience b ≠ "experienced" →
      effective_experience b ≠ "beginner" → score_experience a b = 100) ∧
    (b.experience_level = none → effective_experience b = "beginner") := by
  simp only [needs_training, effective_experience]
  refine ⟨?_, ?_, ?_, ?_, ?_, ?_⟩
  · intro h1 h2
    simp only [score_experience, h1, h2]
    decide
  · intro h1 h2
    simp only [score_experience, h1, h2]
    decide
  · intro h1 h2
    simp only [score_experience, h1, h2]
    decide
  · intro h1 h2
    simp only [score_experience, h1, h2]
    decide
  · intro h1 h2
    have e1 : (strLower (b.experience_level.getD "beginner") == "experienced") = false :=
      beq_eq_false_iff_ne.mpr h1
    have e2 : (strLower (b.experience_level.getD "beginner") == "beginner") = false :=
      beq_eq_false_iff_ne.mpr h2
    simp only [score_experience, e1, e2, Bool.and_false]
    decide
  · intro h1
    simp only [h1]
    decide

/-- C4 witness: the table applied at three concrete pairs — special-needs
animal with beginner adopter gives 40, easy animal with a missing
experience key gives 90, and an unrecognized value gives 100. -/
theorem score_experience_table_witness :
    score_experience needyAnimal activeAdopter = 40 ∧
    score_experience easyAnimal noExperienceKeyAdopter = 90 ∧
    score_experience needyAnimal intermediateAdopter = 100 := by
  refine ⟨?_, ?_, ?_⟩
  · exact (score_experience_table needyAnimal activeAdopter).2.1
      (by decide) (by decide)
  · exact (score_experience_table easyAnimal noExperienceKeyAdopter).2.2.1
      (by decide) (by decide)
  · exact (score_experience_table needyAnimal intermediateAdopter).2.2.2.2.1
      (by decide) (by decide)

/-- C5: scoring is pure and deterministic — the (score, reasoning) result
of `calculate_compatibility` depends only on the two input records (the
embedding is a function of the records and the fixed weight/table
constants alone; the source reads no clock, randomness or mutable state),
so two invocations on the same two records return the identical pair. -/
theorem calculate_compatibility_deterministic
    (a a2 : AnimalRec) (b b2 : AdopterRec) (ha : a = a2) (hb : b = b2) :
    calculate_compatibility a b = calculate_compatibility a2 b2 := by
  subst ha; subst hb; rfl

/-- C5 witness: two invocations on the example pair coincide. -/
theorem calculate_compatibility_deterministic_witness :
    calculate_compatibility goldenAnimal activeAdopter =
      calculate_compatibility goldenAnimal activeAdopter :=
  calculate_compatibility_deterministic goldenAnimal goldenAnimal
    activeAdopter activeAdopter rfl rfl

end CompatibilityScorer

/-- If two optional strings agree after lowercasing (same presence), the
lowercased default-substituted lookup values agree too. -/
theorem strLower_getD_congr {x y : Option String} (d : String)
    (h : x.map strLower = y.map strLower) :
    strLower (x.getD d) = strLower (y.getD d) := by
  cases x <;> cases y <;> simp_all

namespace CompatibilityScorer

theorem estimate_size_congr {x y : String} (h : strLower x = strLower y) :
    estimate_size x = estimate_size y := by
  simp only [estimate_size, h]

theorem score_lifestyle_congr {a a2 : AnimalRec} {b b2 : AdopterRec}
    (ha : a.energy_level.map strLower = a2.energy_level.map strLower)
    (hb : b.lifestyle.map strLower = b2.lifestyle.map strLower) :
    score_lifestyle a b = score_lifestyle a2 b2 := by
  simp only [score_lifestyle,
    strLower_getD_congr "medium" ha, strLower_getD_congr "moderate" hb]

theorem score_experience_congr {a a2 : AnimalRec} {b b2 : AdopterRec}
    (ha : a.special_needs.map strLower = a2.special_needs.map strLower)
    (hb : b.experience_level.map strLower = b2.experience_level.map strLower) :
    score_experience a b = score_experience a2 b2 := by
  simp only [score_experience,
    strLower_getD_congr "" ha, strLower_getD_congr "beginner" hb]

theorem score_home_congr {a a2 : AnimalRec} {b b2 : AdopterRec}
    (ha : a.breed.map strLower = a2.breed.map strLower)
    (hb : b.home_type.map strLower = b2.home_type.map strLower) :
    score_home a b = score_home a2 b2 := by
  simp only [score_home,
    estimate_size_congr (strLower_getD_congr "" ha),
    strLower_getD_congr "apartment" hb]

theorem score_behavior_congr {a a2 : AnimalRec} {b b2 : AdopterRec}
    (hgk : a.good_with_kids.map strLower = a2.good_with_kids.map strLower)
    (hgp : a.good_with_dogs.map strLower = a2.good_with_dogs.map strLower)
    (hk : b.has_kids.map strLower = b2.has_kids.map strLower)
    (hp : b.has_other_pets.map strLower = b2.has_other_pets.map strLower) :
    score_behavior a b = score_behavior a2 b2 := by
  simp only [score_behavior,
    strLower_getD_congr "no" hgk, strLower_getD_congr "no" hgp,
    strLower_getD_congr "no" hk, strLower_getD_congr "no" hp]

theorem score_special_needs_congr {a a2 : AnimalRec} {b b2 : AdopterRec}
    (ha : a.special_needs.map strLower = a2.special_needs.map strLower)
    (hb : b.commitment_level.map strLower = b2.commitment_level.map strLower) :
    score_special_needs a b = score_special_needs a2 b2 := by
  simp only [score_special_needs,
    strLower_getD_congr "no" ha, strLower_getD_congr "medium" hb]

/-- C9: the total score is invariant under changing the letter case of any
categorical field value in either record, because every lookup lowercases
the value (via `str.lower()`) before comparing it with the lowercase table
keys. -/
theorem total_score_case_insensitive
    (a a2 : AnimalRec) (b b2 : AdopterRec)
    (ha : lowerEquivAnimal a a2) (hb : lowerEquivAdopter b b2) :
    (calculate_compatibility a b).1 = (calculate_compatibility a2 b2).1 := by
  obtain ⟨hbr, hen, hgk, hgp, hsn⟩ := ha
  obtain ⟨hls, hht, hhk, hhp, hex, hcl⟩ := hb
  rw [calc_fst, calc_fst, score_lifestyle_congr hen hls,
    score_experience_congr hsn hex, score_home_congr hbr hht,
    score_behavior_congr hgk hgp hhk hhp, score_special_needs_congr hsn hcl]

/-- C9 witness: the fully-uppercased variants of the example records get
the same total score as the originals. -/
theorem total_score_case_insensitive_witness :
    lowerEquivAnimal goldenAnimal goldenAnimalCaps ∧
    lowerEquivAdopter activeAdopter activeAdopterCaps ∧
    (calculate_compatibility goldenAnimal activeAdopter).1 =
      (calculate_compatibility goldenAnimalCaps activeAdopterCaps).1 :=
  ⟨by unfold lowerEquivAnimal; decide, by unfold lowerEquivAdopter; decide,
    total_score_case_insensitive goldenAnimal goldenAnimalCaps
      activeAdopter activeAdopterCaps (by unfold lowerEquivAnimal; decide)
      (by unfold lowerEquivAdopter; decide)⟩

end CompatibilityScorer

/-! ## Ranking (C6) -/

namespace MatchingAgent

theorem matchLE_trans (a b c : MatchRec) :
    decide (b.score ≤ a.score) = true → decide (c.score ≤ b.score) = true →
    decide (c.score ≤ a.score) = true := by
  intro h1 h2
  simp only [decide_eq_true_eq] at h1 h2 ⊢
  omega

theorem matchLE_total (a b : MatchRec) :
    (decide (b.score ≤ a.score) || decide (a.score ≤ b.score)) = true := by
  simp only [Bool.or_eq_true, decide_eq_true_eq]
  omega

/-- Stability of the descending sort used by `find_matches`, stated per
score class: the matches holding any fixed score appear in the sorted list
exactly as they appear in the input list. -/
theorem mergeSort_filter_score (l : List MatchRec) (s : Nat) :
    (l.mergeSort (fun x y => decide (y.score ≤ x.score))).filter
        (fun m => m.score == s) =
      l.filter (fun m => m.score == s) := by
  have hpw : (l.filter (fun m => m.score == s)).Pairwise
      (fun a b => (fun x y => decide (y.score ≤ x.score)) a b = true) := by
    apply List.pairwise_of_forall_mem_list
    intro x hx y hy
    have hx2 := List.of_mem_filter hx
    have hy2 := List.of_mem_filter hy
    simp only [beq_iff_eq] at hx2 hy2
    simp only [decide_eq_true_eq]
    omega
  have hsub : (l.filter (fun m => m.score == s)).Sublist
      (l.mergeSort (fun x y => decide (y.score ≤ x.score))) :=
    List.sublist_mergeSort matchLE_trans matchLE_total hpw (List.filter_sublist l)
  have hsub2 : (l.filter (fun m => m.score == s)).Sublist
      ((l.mergeSort (fun x y => decide (y.score ≤ x.score))).filter
        (fun m => m.score == s)) := by
    have h2 := hsub.filter (fun m => m.score == s)
    have hall : ∀ a ∈ l.filter (fun m => m.score == s),
        (fun m : MatchRec => m.score == s) a = true :=
      fun a ha => @List.of_mem_filter _ (fun m => m.score == s) a l ha
    rwa [List.filter_eq_self.mpr hall] at h2
  have hperm : ((l.mergeSort (fun x y => decide (y.score ≤ x.score))).filter
      (fun m => m.score == s)).Perm (l.filter (fun m => m.score == s)) :=
    (List.mergeSort_perm l _).filter _
  exact (hsub2.eq_of_length hperm.length_eq.symm).symm

/-- C6: `find_matches` returns the empty list when the adopter ID does not
resolve; otherwise it scores every animal in the store (the sorted list is
a permutation of the matches built from all animals), `top_n` defaults
to 3, and the result is the first `top_n` entries (all of them when fewer
exist) of a list that is sorted by non-increasing score and keeps the
store's original iteration order inside every equal-score class (the
stable-sort tie-break). -/
theorem find_matches_spec (dl : DataLoader) (aid : String) (n : Nat) :
    (dl.get_adopter aid = none → find_matches dl aid n = []) ∧
    (find_matches dl aid = find_matches dl aid 3) ∧
    (∀ ad, dl.get_adopter aid = some ad →
      ∃ sorted : List MatchRec,
        sorted.Perm ((dl.get_all_animals).map (mkMatch ad)) ∧
        sorted.Pairwise (fun x y => y.score ≤ x.score) ∧
        (∀ s : Nat, sorted.filter (fun m => m.score == s) =
          ((dl.get_all_animals).map (mkMatch ad)).filter
            (fun m => m.score == s)) ∧
        find_matches dl aid n = sorted.take n) := by
  refine ⟨?_, rfl, ?_⟩
  · intro h
    simp [find_matches, h]
  · intro ad h
    refine ⟨((dl.get_all_animals).map (mkMatch ad)).mergeSort
      (fun x y => decide (y.score ≤ x.score)), List.mergeSort_perm _ _,
      ?_, ?_, ?_⟩
    · exact (List.sorted_mergeSort matchLE_trans matchLE_total _).imp
        (fun hd => of_decide_eq_true hd)
    · intro s
      exact mergeSort_filter_score _ s
    · simp [find_matches, h]

/-- C6 witness: on a two-animal store, the theorem yields the empty result
for an unknown adopter ID and the take-of-stable-sort shape for the known
one. -/
theorem find_matches_spec_witness :
    find_matches witnessLoader "zz" 3 = [] ∧
    (∃ sorted : List MatchRec,
      sorted.Perm ((witnessLoader.get_all_animals).map (mkMatch activeAdopter)) ∧
      sorted.Pairwise (fun x y => y.score ≤ x.score) ∧
      (∀ s : Nat, sorted.filter (fun m => m.score == s) =
        ((witnessLoader.get_all_animals).map (mkMatch activeAdopter)).filter
          (fun m => m.score == s)) ∧
      find_matches witnessLoader "1" 1 = sorted.take 1) :=
  ⟨(find_matches_spec witnessLoader "zz" 3).1 (by decide),
   (find_matches_spec witnessLoader "1" 1).2.2 activeAdopter (by decide)⟩

end MatchingAgent

/-! ## Configuration invariant (C7) and persistence (C8, C10) -/

namespace CompatibilityScorer

/-- C7: the weight configuration hard-coded by `CompatibilityScorer.__init__`
does sum to exactly 1.0 (so the invariant the spec wants validated holds
for the shipped constant), and the integer-scaled table used in the
aggregation sums to 100.  The constructor itself performs no validation of
any kind — it unconditionally assigns the dict, cannot raise, and no
`ConfigurationInvariantViolation` is defined anywhere in the repository —
so this theorem documents the invariant, not a check in the code. -/
theorem weights_sum_exactly_one :
    ((weightsQ.map Prod.snd).sum = 1) ∧ ((weights.map Prod.snd).sum = 100) := by
  constructor
  · norm_num [weightsQ]
  · decide

end CompatibilityScorer

/-- C8 counterexample: `create_session` at time 5 persists the full state,
but the subsequent `add_match` on the stored session returns with the
in-memory session holding one match while the file still holds the
pre-mutation snapshot: a session-mutating call after which the file does
not contain the current state. -/
theorem add_match_does_not_persist :
    storeAfterCreate.file.map FileDoc.sessions =
      some (storeAfterCreate.sessions.map (fun p => p.2)) ∧
    storeAfterAddMatch.file.map FileDoc.sessions ≠
      some (storeAfterAddMatch.sessions.map (fun p => p.2)) := by decide

/-- C8 amended: the store-level mutators `create_session` and
`record_match` persist the entire current in-memory state (all sessions
plus the flat match-history log) to the storage file before returning,
but the session-level mutators `add_match`, `select_animal`,
`complete_adoption` and `add_feedback` only mutate the in-memory session
object and leave the storage file exactly as it was. -/
theorem persistence_behavior (st : MemoryStore) (now : Nat)
    (sid aid anid fb : String) (md : HistEntry) (m : AdoptionMatch) :
    ((MemoryStore.create_session now sid aid st).1.file =
      some { last_saved := now
             sessions :=
               (MemoryStore.create_session now sid aid st).1.sessions.map
                 (fun p => p.2)
             match_history :=
               (MemoryStore.create_session now sid aid st).1.match_history }) ∧
    ((MemoryStore.record_match now md st).file =
      some { last_saved := now
             sessions :=
               (MemoryStore.record_match now md st).sessions.map (fun p => p.2)
             match_history := (MemoryStore.record_match now md st).match_history }) ∧
    ((MemoryStore.mutate_session sid (AdoptionSession.add_match m) st).file =
      st.file) ∧
    ((MemoryStore.mutate_session sid
        (AdoptionSession.select_animal now anid) st).file = st.file) ∧
    ((MemoryStore.mutate_session sid
        (AdoptionSession.complete_adoption now) st).file = st.file) ∧
    ((MemoryStore.mutate_session sid
        (AdoptionSession.add_feedback now fb) st).file = st.file) :=
  ⟨rfl, rfl, rfl, rfl, rfl, rfl⟩

/-- C10: `get_match_statistics` never divides by zero — an empty history
returns exactly the one-key dictionary `{"total_matches": 0}` with no
average computed, and a non-empty history has strictly positive length, so
the divisor of `average_score` is non-zero. -/
theorem get_match_statistics_div_guarded (st : MemoryStore) :
    (st.match_history = [] →
      MemoryStore.get_match_statistics st = { total_matches := 0 }) ∧
    (st.match_history ≠ [] →
      0 < st.match_history.length ∧
      (MemoryStore.get_match_statistics st).average_score =
        some ((st.match_history.map (fun m => ((m.score.getD 0 : ℚ)))).sum /
          (st.match_history.length : ℚ)) ∧
      (st.match_history.length : ℚ) ≠ 0) := by
  constructor
  · intro h
    simp [MemoryStore.get_match_statistics, h]
  · intro h
    have hlen : 0 < st.match_history.length := List.length_pos.mpr h
    refine ⟨hlen, ?_, ?_⟩
    · simp [MemoryStore.get_match_statistics, h]
    · exact_mod_cast Nat.pos_iff_ne_zero.mp hlen

/-- C10 witness: the empty store returns the bare counter, and a one-entry
history gets its average over the single element. -/
theorem get_match_statistics_div_guarded_witness :
    MemoryStore.get_match_statistics {} = { total_matches := 0 } ∧
    (MemoryStore.get_match_statistics oneMatchStore).average_score =
      some ((oneMatchStore.match_history.map
          (fun m => ((m.score.getD 0 : ℚ)))).sum /
        (oneMatchStore.match_history.length : ℚ)) :=
  ⟨(get_match_statistics_div_guarded {}).1 rfl,
   ((get_match_statistics_div_guarded oneMatchStore).2 (by decide)).2.1⟩
